import Mathlib

/-
  Verification of the finance RAG chatbot (f_app.py).

  Shallow embedding: the request pipeline rag_answer, the startup corpus
  loader, and the chat endpoint are translated into executable Lean
  definitions.  Floating-point scores and distances are modelled as
  rationals; the external collaborators (embedding service, vector index,
  chat-completion model) are modelled as oracles supplied to the pipeline,
  and the external calls the pipeline performs are recorded in a trace.
-/

/-- Model of the Python str.lower method, character by character (ASCII). -/
def pyLower (s : String) : String := String.mk (s.data.map Char.toLower)

/-- Model of the Python str.upper method, character by character (ASCII). -/
def pyUpper (s : String) : String := String.mk (s.data.map Char.toUpper)

/-- Model of the Python str.strip method: drop leading and trailing whitespace. -/
def pyStrip (s : String) : String :=
  String.mk (((s.data.dropWhile Char.isWhitespace).reverse.dropWhile Char.isWhitespace).reverse)

/-- Accumulator-based extraction of maximal digit runs from a character list.
The first argument is the reversed current run. -/
def digitRunsAux : List Char → List Char → List String
  | acc, [] => if acc.isEmpty then [] else [String.mk acc.reverse]
  | acc, c :: cs =>
    if c.isDigit then digitRunsAux (c :: acc) cs
    else if acc.isEmpty then digitRunsAux [] cs
    else String.mk acc.reverse :: digitRunsAux [] cs

/-- Model of re.findall applied to a digit-run pattern: the list of maximal
digit runs of the string, in order. -/
def digitRuns (s : String) : List String := digitRunsAux [] s.data

/-- Decidable sublist-of-consecutive-elements test, modelling the Python
substring membership operator on strings. -/
def listSublistOf (ns : List Char) : List Char → Bool
  | [] => ns.isEmpty
  | c :: cs => ns.isPrefixOf (c :: cs) || listSublistOf ns cs

/-- Model of the Python expression needle in hay for strings. -/
def strIn (needle hay : String) : Bool := listSublistOf needle.data hay.data

/-- The fixed folio keyword list from rag_answer. -/
def folio_keywords : List String := ["folio", "folio number", "फोलियो", "फोलियो नंबर"]

/-- The keyword test from the guard: some keyword, lowercased, occurs in the
lowercased question. -/
def keywordPresent (user_query : String) : Bool :=
  folio_keywords.any (fun keyword => strIn (pyLower keyword) (pyLower user_query))

/-- The sensitive-data guard of rag_answer: some maximal digit run has length
above 7 and a folio keyword occurs in the question. -/
def guardFires (user_query : String) : Bool :=
  (digitRuns user_query).any (fun num => decide (7 < num.length) && keywordPresent user_query)

/-- The threshold decision of rag_answer: the nearest-neighbor distance is at
most one minus the caller-supplied similarity threshold. -/
def thresholdMatch (d t : ℚ) : Bool := decide (d ≤ 1 - t)

/-- Refusal text returned by the sensitive-data guard. -/
def folioRefusalText : String := "Sorry, I can't provide information about folio numbers."

/-- Text returned when the index yields no neighbors. -/
def noResultText : String := "No similar question found in the dataset."

/-- Refusal text returned by the domain gate. -/
def domainRefusalText : String := "I'm sorry, I can only answer questions related to finance, stock market, and investments. Please ask a finance-related question."

/-- Metadata payload stored with each indexed vector, as built by the loader
and read back by rag_answer. -/
structure Metadata where
  answer_english : String
  answer_hinglish : String
  answer_hindi : String
  language : String
deriving DecidableEq

/-- One retrieval result: document text, cosine distance and metadata. -/
structure Neighbor where
  document : String
  distance : ℚ
  metadata : Metadata
deriving DecidableEq

/-- External calls the pipeline can make, recorded in order. -/
inductive ExtCall where
  | embed (text : String)
  | indexQuery (k : Nat)
  | classify (prompt : String)
  | generate (prompt : String)
deriving DecidableEq

/-- Oracles for the external collaborators: the ordered neighbor list the
index returns for the query (at most 2), the raw classifier reply, and the
generator reply as a function of the prompt. -/
structure Oracles where
  neighbors : List Neighbor
  classifierReply : String
  generatorReply : String → String

/-- The calls made by the embed-and-retrieve step. -/
def baseCalls (user_query : String) : List ExtCall :=
  [ExtCall.embed user_query, ExtCall.indexQuery 2]

/-- The domain-classifier prompt built by rag_answer. -/
def finance_check_prompt (user_query : String) : String :=
  "\nYou are a financial domain classifier. Determine if the following question is related to finance, stock market, investments, mutual funds, trading, banking, or financial services.\n\nQuestion: " ++ user_query ++ "\n\nAnswer with ONLY \"YES\" if it's finance-related, or \"NO\" if it's not finance-related. No explanation needed.\n"

/-- The per-neighbor context block built in the generation step. -/
def contextBlock (r : Neighbor) : String :=
  "Q: " ++ r.document ++ "\nA (English): " ++ r.metadata.answer_english ++ "\nA (Hindi): " ++ r.metadata.answer_hindi

/-- Model of the Python join of strings on a blank-line separator. -/
def joinBlocks : List String → String
  | [] => ""
  | [c] => c
  | c :: c2 :: rest => c ++ "\n\n" ++ joinBlocks (c2 :: rest)

/-- The answer-generation prompt built by rag_answer. -/
def gen_prompt (user_query context_text : String) : String :=
  "\nYou are a helpful financial assistant. Use the following context to answer the user query about finance.\n\nContext:\n" ++ context_text ++ "\n\nUser Query: " ++ user_query ++ "\n\nAnswer in a clear and natural way. Focus only on financial information.\n"

/-- The match branch of rag_answer: inside the threshold test, the three-way
comparison on the language tag; the unknown-language case yields none, which
makes control fall through to the code after the branch. -/
def matchResult (top : Neighbor) (similarity_threshold : ℚ) : Option (String × ℚ) :=
  if thresholdMatch top.distance similarity_threshold then
    if top.metadata.language = "english" then
      some (top.metadata.answer_english, 1 - top.distance)
    else if top.metadata.language = "hindi" then
      some (top.metadata.answer_hindi, 1 - top.distance)
    else if top.metadata.language = "hinglish" then
      some (top.metadata.answer_hinglish, 1 - top.distance)
    else none
  else none

/-- The code of rag_answer following the match branch: the domain gate and,
when the normalized classifier reply is YES, context assembly and generation. -/
def noMatchPath (user_query : String) (o : Oracles) (top : Neighbor) :
    (String × ℚ) × List ExtCall :=
  let fcp := finance_check_prompt user_query
  let is_finance_related := pyUpper (pyStrip o.classifierReply)
  if is_finance_related ≠ "YES" then
    ((domainRefusalText, 0), baseCalls user_query ++ [ExtCall.classify fcp])
  else
    let context_text := joinBlocks (o.neighbors.map contextBlock)
    let prompt := gen_prompt user_query context_text
    ((o.generatorReply prompt, 1 - top.distance),
      baseCalls user_query ++ [ExtCall.classify fcp, ExtCall.generate prompt])

/-- Embedding of rag_answer: result text, result score, and the trace of
external calls made. -/
def ragAnswer (user_query : String) (similarity_threshold : ℚ) (o : Oracles) :
    (String × ℚ) × List ExtCall :=
  if guardFires user_query then
    ((folioRefusalText, 0), [])
  else
    match o.neighbors with
    | [] => ((noResultText, 0), baseCalls user_query)
    | top :: _ =>
      match matchResult top similarity_threshold with
      | some r => (r, baseCalls user_query)
      | none => noMatchPath user_query o top

/-- Substring containment on the underlying character lists, used to state
what the generation prompt carries. -/
def containsStr (needle hay : String) : Prop :=
  ∃ pre post, hay.data = pre ++ needle.data ++ post

/-- Question or answer texts of one corpus entry in the three languages. -/
structure LangVariants where
  english : String
  hinglish : String
  hindi : String
deriving DecidableEq

/-- One entry of the JSON corpus. -/
structure CorpusEntry where
  id : String
  question : LangVariants
  answer : LangVariants
deriving DecidableEq

/-- One vector inserted into the similarity index by the loader. -/
structure IndexedVector where
  key : String
  document : String
  embedding : List ℚ
  metadata : Metadata
deriving DecidableEq

/-- The language and question-variant pairs the loader iterates over for one
corpus entry, in program order. -/
def variantList (item : CorpusEntry) : List (String × String) :=
  [("english", item.question.english), ("hinglish", item.question.hinglish),
    ("hindi", item.question.hindi)]

/-- The vector the loader inserts for one entry and one language variant:
key id underscore language, the question text as document, its embedding, and
the metadata with all three answer variants and the language tag. -/
def mkVector (embedFn : String → List ℚ) (item : CorpusEntry)
    (lang q_text : String) : IndexedVector :=
  ⟨item.id ++ "_" ++ lang, q_text, embedFn q_text,
    ⟨item.answer.english, item.answer.hinglish, item.answer.hindi, lang⟩⟩

/-- The inner loop of the loader for one entry: one insertion per language
variant whose question text is non-empty after stripping whitespace. -/
def itemInserts (embedFn : String → List ℚ) (item : CorpusEntry) :
    List IndexedVector :=
  (variantList item).filterMap (fun p =>
    if pyStrip p.2 ≠ "" then some (mkVector embedFn item p.1 p.2) else none)

/-- The outer loop of the loader over all corpus entries, in order. -/
def allInserts (embedFn : String → List ℚ) : List CorpusEntry → List IndexedVector
  | [] => []
  | item :: rest => itemInserts embedFn item ++ allInserts embedFn rest

/-- Embedding of the startup ingestion in initialize_app: insert only when
the stored-vector count is zero, otherwise do nothing at all. -/
def initialInserts (embedFn : String → List ℚ) (count : Nat)
    (data : List CorpusEntry) : List IndexedVector :=
  if count = 0 then allInserts embedFn data else []

/-- Response model of the chat endpoint. -/
structure QueryResponse where
  status : String
  user_query : String
  bot_response : String
  similarity_score : Option ℚ
deriving DecidableEq

/-- Exceptions that can be raised inside the try block of the chat endpoint:
the HTTPException raised for an empty question, or any service-layer error
raised by the core. -/
inductive PyExc where
  | http (status : Nat) (detail : String)
  | serviceError (msg : String)
deriving DecidableEq

/-- Model of the Python str function applied to an exception: a starlette
HTTPException prints as status colon detail, a generic exception as its
message. -/
def excMessage : PyExc → String
  | PyExc.http status detail => toString status ++ ": " ++ detail
  | PyExc.serviceError msg => msg

/-- What the chat endpoint sends back: a JSON response, or an HTTP error
raised through HTTPException. -/
inductive ChatResult where
  | response (r : QueryResponse)
  | httpError (status : Nat) (detail : String)
deriving DecidableEq

/-- Round to the nearest integer, ties to even, as the Python round builtin. -/
def roundHalfEven (q : ℚ) : ℤ :=
  if q - ⌊q⌋ < 1/2 then ⌊q⌋
  else if 1/2 < q - ⌊q⌋ then ⌊q⌋ + 1
  else if ⌊q⌋ % 2 = 0 then ⌊q⌋ else ⌊q⌋ + 1

/-- Model of the Python expression round applied with 4 decimal places. -/
def pyRound4 (q : ℚ) : ℚ := (roundHalfEven (q * 10000) : ℚ) / 10000

/-- The try block of the chat endpoint: reject an empty or whitespace-only
question by raising HTTPException 400, run the core, and build the response,
with a null similarity score whenever the score is falsy, that is exactly
zero. -/
def chatBody (question : String) (coreResult : Except String (String × ℚ)) :
    Except PyExc QueryResponse :=
  if question = "" ∨ pyStrip question = "" then
    Except.error (PyExc.http 400 "Question cannot be empty")
  else
    match coreResult with
    | Except.error msg => Except.error (PyExc.serviceError msg)
    | Except.ok (answer, similarity) =>
      Except.ok ⟨"success", question, answer,
        if similarity = 0 then none else some (pyRound4 similarity)⟩

/-- Embedding of the chat endpoint: the try block wrapped in the catch-all
except clause, which turns every exception raised inside, including the
HTTPException 400 of the validation check, into an HTTPException 500. -/
def chat (question : String) (coreResult : Except String (String × ℚ)) :
    ChatResult :=
  match chatBody question coreResult with
  | Except.ok r => ChatResult.response r
  | Except.error e =>
    ChatResult.httpError 500 ("Error processing query: " ++ excMessage e)

/-- String containment is reflexive. -/
theorem containsStr_refl (n : String) : containsStr n n :=
  ⟨[], [], by simp⟩

/-- String containment survives appending on the left. -/
theorem containsStr_appendLeft {n h : String} (x : String)
    (hc : containsStr n h) : containsStr n (x ++ h) := by
  obtain ⟨p, s, e⟩ := hc
  exact ⟨x.data ++ p, s, by simp [String.data_append, e]⟩

/-- String containment survives appending on the right. -/
theorem containsStr_appendRight {n h : String} (x : String)
    (hc : containsStr n h) : containsStr n (h ++ x) := by
  obtain ⟨p, s, e⟩ := hc
  exact ⟨p, s ++ x.data, by simp [String.data_append, e]⟩

/-- String containment is transitive. -/
theorem containsStr_trans {a b c : String} (h1 : containsStr a b)
    (h2 : containsStr b c) : containsStr a c := by
  obtain ⟨p1, s1, e1⟩ := h1
  obtain ⟨p2, s2, e2⟩ := h2
  exact ⟨p2 ++ p1, s1 ++ s2, by simp [e2, e1]⟩

/-- Every block of a list is contained in the joined string. -/
theorem containsStr_joinBlocks {b : String} {l : List String} (hb : b ∈ l) :
    containsStr b (joinBlocks l) := by
  induction l with
  | nil => cases hb
  | cons c rest ih =>
    cases rest with
    | nil =>
      have hbc : b = c := by simpa using hb
      subst hbc
      exact containsStr_refl b
    | cons c2 rest2 =>
      rcases List.mem_cons.mp hb with hbc | hb2
      · subst hbc
        exact ⟨[], ("\n\n".data ++ (joinBlocks (c2 :: rest2)).data), by
          simp [joinBlocks, String.data_append]⟩
      · exact containsStr_appendLeft (c ++ "\n\n") (ih hb2)

/-- Whatever the context block contains, the generation prompt contains. -/
theorem containsStr_gen_prompt {n : String} (q ctx : String)
    (h : containsStr n ctx) : containsStr n (gen_prompt q ctx) :=
  containsStr_appendRight _ (containsStr_appendRight _
    (containsStr_appendRight _ (containsStr_appendLeft _ h)))

/-- A context block contains the retrieved question text. -/
theorem containsStr_block_document (r : Neighbor) :
    containsStr r.document (contextBlock r) :=
  containsStr_appendRight _ (containsStr_appendRight _
    (containsStr_appendRight _ (containsStr_appendRight _
      (containsStr_appendLeft _ (containsStr_refl _)))))

/-- A context block contains the English answer variant. -/
theorem containsStr_block_english (r : Neighbor) :
    containsStr r.metadata.answer_english (contextBlock r) :=
  containsStr_appendRight _ (containsStr_appendRight _
    (containsStr_appendLeft _ (containsStr_refl _)))

/-- A context block contains the Hindi answer variant. -/
theorem containsStr_block_hindi (r : Neighbor) :
    containsStr r.metadata.answer_hindi (contextBlock r) :=
  containsStr_appendLeft _ (containsStr_refl _)

/-- Claim C1: for every question reaching the threshold step, the match test
holds iff the nearest-neighbor distance d is at most 1 - t; raising t only
shrinks the matching distances, t = 1 matches exactly d at most 0, and t = 0
matches every d at most 1. -/
theorem threshold_decision_rule (d t t2 : ℚ) :
    (thresholdMatch d t = true ↔ d ≤ 1 - t) ∧
    (t ≤ t2 → thresholdMatch d t2 = true → thresholdMatch d t = true) ∧
    (thresholdMatch d 1 = true ↔ d ≤ 0) ∧
    (d ≤ 1 → thresholdMatch d 0 = true) := by
  refine ⟨by simp [thresholdMatch], fun h1 h2 => ?_, ?_, fun h => ?_⟩
  · simp only [thresholdMatch, decide_eq_true_eq] at h2 ⊢
    linarith
  · simp only [thresholdMatch, decide_eq_true_eq]
    norm_num
  · simp only [thresholdMatch, decide_eq_true_eq]
    linarith

/-- Witness for C1: distance one half matches at threshold zero. -/
theorem threshold_decision_rule_witness :
    ((1:ℚ)/2 ≤ 1) ∧ thresholdMatch ((1:ℚ)/2) 0 = true :=
  ⟨by norm_num, (threshold_decision_rule ((1:ℚ)/2) 0 0).2.2.2 (by norm_num)⟩

/-- Claim C2: the sensitive-data guard fires iff a folio keyword occurs,
case-insensitively, and some maximal digit run is longer than 7; when it
fires the pipeline returns the fixed refusal with score 0 and an empty call
trace, and with only short digit runs it never fires. -/
theorem folio_guard_characterization (q : String) (t : ℚ) (o : Oracles) :
    (guardFires q = true ↔
      keywordPresent q = true ∧ ∃ r ∈ digitRuns q, 7 < r.length) ∧
    (guardFires q = true → ragAnswer q t o = ((folioRefusalText, 0), [])) ∧
    ((∀ r ∈ digitRuns q, r.length ≤ 7) → guardFires q = false) := by
  have hiff : guardFires q = true ↔
      keywordPresent q = true ∧ ∃ r ∈ digitRuns q, 7 < r.length := by
    simp only [guardFires, List.any_eq_true, Bool.and_eq_true, decide_eq_true_eq]
    constructor
    · rintro ⟨r, hr, hlen, hk⟩
      exact ⟨hk, r, hr, hlen⟩
    · rintro ⟨hk, r, hr, hlen⟩
      exact ⟨r, hr, hlen, hk⟩
  refine ⟨hiff, fun h => by simp [ragAnswer, h], fun hall => ?_⟩
  cases hg : guardFires q with
  | false => rfl
  | true =>
    obtain ⟨-, r, hr, hlen⟩ := hiff.mp hg
    exact absurd (hall r hr) (by omega)

/-- Witness for C2: a question carrying a folio keyword and a nine-digit run
makes the pipeline refuse with no external call. -/
theorem folio_guard_characterization_witness :
    guardFires "my folio number is 123456789" = true ∧
    ragAnswer "my folio number is 123456789" (7/10) ⟨[], "", fun s => s⟩ =
      ((folioRefusalText, 0), []) :=
  ⟨by decide,
    (folio_guard_characterization "my folio number is 123456789" (7/10)
      ⟨[], "", fun s => s⟩).2.1 (by decide)⟩

/-- Unfolding of the pipeline past the guard on a nonempty retrieval. -/
theorem ragAnswer_unfold {q : String} {t : ℚ} {o : Oracles} {top : Neighbor}
    {rest : List Neighbor} (hg : guardFires q = false)
    (hn : o.neighbors = top :: rest) :
    ragAnswer q t o =
      match matchResult top t with
      | some r => (r, baseCalls q)
      | none => noMatchPath q o top := by
  simp [ragAnswer, hg, hn]

/-- The threshold test succeeds whenever the distance bound holds. -/
theorem thresholdMatch_of_le {d t : ℚ} (h : d ≤ 1 - t) :
    thresholdMatch d t = true := by
  simp [thresholdMatch, h]

/-- The threshold test fails whenever the distance bound fails. -/
theorem thresholdMatch_of_gt {d t : ℚ} (h : 1 - t < d) :
    thresholdMatch d t = false := by
  simp [thresholdMatch]
  linarith

/-- Claim C3: on a threshold match with a known language tag, the pipeline
returns the answer variant of that language with score 1 - d, and neither the
classifier nor the generator is called. -/
theorem match_returns_language_variant (q : String) (t : ℚ) (o : Oracles)
    (top : Neighbor) (rest : List Neighbor) (hg : guardFires q = false)
    (hn : o.neighbors = top :: rest) (hd : top.distance ≤ 1 - t) :
    (top.metadata.language = "english" →
      ragAnswer q t o =
        ((top.metadata.answer_english, 1 - top.distance), baseCalls q)) ∧
    (top.metadata.language = "hindi" →
      ragAnswer q t o =
        ((top.metadata.answer_hindi, 1 - top.distance), baseCalls q)) ∧
    (top.metadata.language = "hinglish" →
      ragAnswer q t o =
        ((top.metadata.answer_hinglish, 1 - top.distance), baseCalls q)) ∧
    (top.metadata.language ∈ (["english", "hindi", "hinglish"] : List String) →
      ∀ p, ExtCall.classify p ∉ (ragAnswer q t o).2 ∧
        ExtCall.generate p ∉ (ragAnswer q t o).2) := by
  rw [ragAnswer_unfold hg hn]
  have htm := thresholdMatch_of_le hd
  refine ⟨fun hl => ?_, fun hl => ?_, fun hl => ?_, fun hl p => ?_⟩
  · simp [matchResult, htm, hl]
  · simp [matchResult, htm, hl]
  · simp [matchResult, htm, hl]
  · rcases List.mem_cons.mp hl with hl1 | hl23
    · simp [matchResult, htm, hl1, baseCalls]
    · rcases List.mem_cons.mp hl23 with hl2 | hl3
      · simp [matchResult, htm, hl2, baseCalls]
      · have hl3 : top.metadata.language = "hinglish" := by simpa using hl3
        simp [matchResult, htm, hl3, baseCalls]

/-- Witness for C3: a stored English neighbor at distance one tenth under
threshold seven tenths is returned as the English answer with score nine
tenths worth of the distance complement. -/
theorem match_returns_language_variant_witness :
    guardFires "sip kya hai" = false ∧
    ((1:ℚ)/10 ≤ 1 - 7/10) ∧
    ragAnswer "sip kya hai" (7/10)
        ⟨[⟨"what is sip", 1/10, ⟨"ansE", "ansHG", "ansHI", "english"⟩⟩],
          "NO", fun s => s⟩ =
      (("ansE", 1 - 1/10), baseCalls "sip kya hai") :=
  ⟨by decide, by norm_num,
    (match_returns_language_variant "sip kya hai" (7/10)
      ⟨[⟨"what is sip", 1/10, ⟨"ansE", "ansHG", "ansHI", "english"⟩⟩],
        "NO", fun s => s⟩
      ⟨"what is sip", 1/10, ⟨"ansE", "ansHG", "ansHI", "english"⟩⟩ []
      (by decide) rfl (by norm_num)).1 rfl⟩

/-- Claim C4: on the no-match path, a normalized classifier reply other than
YES yields the fixed domain refusal with score 0 and no generator call. -/
theorem domain_gate_refusal (q : String) (t : ℚ) (o : Oracles)
    (top : Neighbor) (rest : List Neighbor) (hg : guardFires q = false)
    (hn : o.neighbors = top :: rest) (hd : 1 - t < top.distance)
    (hc : pyUpper (pyStrip o.classifierReply) ≠ "YES") :
    ragAnswer q t o =
      ((domainRefusalText, 0),
        baseCalls q ++ [ExtCall.classify (finance_check_prompt q)]) ∧
    ∀ p, ExtCall.generate p ∉ (ragAnswer q t o).2 := by
  rw [ragAnswer_unfold hg hn]
  have htm := thresholdMatch_of_gt hd
  constructor
  · simp [matchResult, htm, noMatchPath, hc]
  · intro p
    simp [matchResult, htm, noMatchPath, hc, baseCalls]

/-- Witness for C4: a distant neighbor and the classifier reply no produce
the domain refusal. -/
theorem domain_gate_refusal_witness :
    (1 - (7:ℚ)/10 < 9/10) ∧
    pyUpper (pyStrip " no ") ≠ "YES" ∧
    ragAnswer "best pizza recipe" (7/10)
        ⟨[⟨"what is sip", 9/10, ⟨"ansE", "ansHG", "ansHI", "english"⟩⟩],
          " no ", fun s => s⟩ =
      ((domainRefusalText, 0),
        baseCalls "best pizza recipe" ++
          [ExtCall.classify (finance_check_prompt "best pizza recipe")]) :=
  ⟨by norm_num, by decide,
    (domain_gate_refusal "best pizza recipe" (7/10)
      ⟨[⟨"what is sip", 9/10, ⟨"ansE", "ansHG", "ansHI", "english"⟩⟩],
        " no ", fun s => s⟩
      ⟨"what is sip", 9/10, ⟨"ansE", "ansHG", "ansHI", "english"⟩⟩ []
      (by decide) rfl (by norm_num) (by decide)).1⟩

/-- Predicate picking the generator calls out of a trace. -/
def isGenerate : ExtCall → Bool
  | ExtCall.generate _ => true
  | _ => false

/-- Claim C5: on the no-match path with classifier reply YES, the generator
is called exactly once, on a prompt containing every retrieved question text
and its English and Hindi answer variants, and the pipeline returns the
generated text verbatim with score 1 - d of the top neighbor. -/
theorem generation_path (q : String) (t : ℚ) (o : Oracles)
    (top : Neighbor) (rest : List Neighbor) (hg : guardFires q = false)
    (hn : o.neighbors = top :: rest) (hd : 1 - t < top.distance)
    (hc : pyUpper (pyStrip o.classifierReply) = "YES") :
    ragAnswer q t o =
      ((o.generatorReply
          (gen_prompt q (joinBlocks (o.neighbors.map contextBlock))),
        1 - top.distance),
        baseCalls q ++
          [ExtCall.classify (finance_check_prompt q),
            ExtCall.generate
              (gen_prompt q (joinBlocks (o.neighbors.map contextBlock)))]) ∧
    (ragAnswer q t o).2.countP isGenerate = 1 ∧
    ∀ r ∈ o.neighbors,
      containsStr r.document
        (gen_prompt q (joinBlocks (o.neighbors.map contextBlock))) ∧
      containsStr r.metadata.answer_english
        (gen_prompt q (joinBlocks (o.neighbors.map contextBlock))) ∧
      containsStr r.metadata.answer_hindi
        (gen_prompt q (joinBlocks (o.neighbors.map contextBlock))) := by
  rw [ragAnswer_unfold hg hn]
  have htm := thresholdMatch_of_gt hd
  refine ⟨?_, ?_, fun r hr => ?_⟩
  · simp [matchResult, htm, noMatchPath, hc]
  · simp [matchResult, htm, noMatchPath, hc, baseCalls, List.countP_cons,
      isGenerate]
  · have hblock : containsStr (contextBlock r)
        (joinBlocks (o.neighbors.map contextBlock)) :=
      containsStr_joinBlocks (List.mem_map_of_mem contextBlock hr)
    exact ⟨containsStr_gen_prompt q _
        (containsStr_trans (containsStr_block_document r) hblock),
      containsStr_gen_prompt q _
        (containsStr_trans (containsStr_block_english r) hblock),
      containsStr_gen_prompt q _
        (containsStr_trans (containsStr_block_hindi r) hblock)⟩

/-- Witness for C5: a distant neighbor and the classifier reply yes lead to
one generator call whose output is returned. -/
theorem generation_path_witness :
    (1 - (7:ℚ)/10 < 9/10) ∧
    pyUpper (pyStrip " yes\n") = "YES" ∧
    ragAnswer "index fund kya hota hai" (7/10)
        ⟨[⟨"what is sip", 9/10, ⟨"ansE", "ansHG", "ansHI", "english"⟩⟩],
          " yes\n", fun s => s⟩ =
      ((gen_prompt "index fund kya hota hai"
          (joinBlocks
            ([⟨"what is sip", 9/10,
                ⟨"ansE", "ansHG", "ansHI", "english"⟩⟩].map contextBlock)),
        1 - 9/10),
        baseCalls "index fund kya hota hai" ++
          [ExtCall.classify (finance_check_prompt "index fund kya hota hai"),
            ExtCall.generate
              (gen_prompt "index fund kya hota hai"
                (joinBlocks
                  ([⟨"what is sip", 9/10,
                      ⟨"ansE", "ansHG", "ansHI", "english"⟩⟩].map
                    contextBlock)))]) :=
  ⟨by norm_num, by decide,
    (generation_path "index fund kya hota hai" (7/10)
      ⟨[⟨"what is sip", 9/10, ⟨"ansE", "ansHG", "ansHI", "english"⟩⟩],
        " yes\n", fun s => s⟩
      ⟨"what is sip", 9/10, ⟨"ansE", "ansHG", "ansHI", "english"⟩⟩ []
      (by decide) rfl (by norm_num) (by decide)).1⟩

/-- Claim C6: when retrieval yields no neighbors, the pipeline returns the
fixed no-similar-question text with score 0, and neither the classifier nor
the generator is called. -/
theorem empty_retrieval (q : String) (t : ℚ) (o : Oracles)
    (hg : guardFires q = false) (hn : o.neighbors = []) :
    ragAnswer q t o = ((noResultText, 0), baseCalls q) ∧
    ∀ p, ExtCall.classify p ∉ (ragAnswer q t o).2 ∧
      ExtCall.generate p ∉ (ragAnswer q t o).2 := by
  have h1 : ragAnswer q t o = ((noResultText, 0), baseCalls q) := by
    simp [ragAnswer, hg, hn]
  refine ⟨h1, fun p => ?_⟩
  rw [h1]
  simp [baseCalls]

/-- Witness for C6: an empty index answer produces the fixed text and only
the embed and query calls. -/
theorem empty_retrieval_witness :
    guardFires "what is sip" = false ∧
    ragAnswer "what is sip" (7/10) ⟨[], "YES", fun s => s⟩ =
      ((noResultText, 0), baseCalls "what is sip") :=
  ⟨by decide,
    (empty_retrieval "what is sip" (7/10) ⟨[], "YES", fun s => s⟩
      (by decide) rfl).1⟩

/-- Claim C8: a threshold match whose language tag is unknown returns nothing
from the match branch; the pipeline continues on the domain-gate and
generation path exactly as when the threshold test fails. -/
theorem unknown_language_falls_through (q : String) (t : ℚ) (o : Oracles)
    (top : Neighbor) (rest : List Neighbor) (hg : guardFires q = false)
    (hn : o.neighbors = top :: rest) (hd : top.distance ≤ 1 - t)
    (hl : top.metadata.language ∉
      (["english", "hindi", "hinglish"] : List String)) :
    ragAnswer q t o = noMatchPath q o top ∧
    ∀ t2, 1 - t2 < top.distance → ragAnswer q t o = ragAnswer q t2 o := by
  have hl1 : top.metadata.language ≠ "english" := fun h => hl (by simp [h])
  have hl2 : top.metadata.language ≠ "hindi" := fun h => hl (by simp [h])
  have hl3 : top.metadata.language ≠ "hinglish" := fun h => hl (by simp [h])
  have hm : matchResult top t = none := by
    simp [matchResult, thresholdMatch_of_le hd, hl1, hl2, hl3]
  have h1 : ragAnswer q t o = noMatchPath q o top := by
    rw [ragAnswer_unfold hg hn, hm]
  refine ⟨h1, fun t2 ht2 => ?_⟩
  have hm2 : matchResult top t2 = none := by
    simp [matchResult, thresholdMatch_of_gt ht2]
  rw [h1, ragAnswer_unfold hg hn, hm2]

/-- Witness for C8: a matching neighbor tagged marathi is handed to the
no-match path. -/
theorem unknown_language_falls_through_witness :
    ((1:ℚ)/10 ≤ 1 - 7/10) ∧
    ("marathi" ∉ (["english", "hindi", "hinglish"] : List String)) ∧
    ragAnswer "sip kya hai" (7/10)
        ⟨[⟨"what is sip", 1/10, ⟨"ansE", "ansHG", "ansHI", "marathi"⟩⟩],
          "NO", fun s => s⟩ =
      noMatchPath "sip kya hai"
        ⟨[⟨"what is sip", 1/10, ⟨"ansE", "ansHG", "ansHI", "marathi"⟩⟩],
          "NO", fun s => s⟩
        ⟨"what is sip", 1/10, ⟨"ansE", "ansHG", "ansHI", "marathi"⟩⟩ :=
  ⟨by norm_num, by decide,
    (unknown_language_falls_through "sip kya hai" (7/10)
      ⟨[⟨"what is sip", 1/10, ⟨"ansE", "ansHG", "ansHI", "marathi"⟩⟩],
        "NO", fun s => s⟩
      ⟨"what is sip", 1/10, ⟨"ansE", "ansHG", "ansHI", "marathi"⟩⟩ []
      (by decide) rfl (by norm_num) (by decide)).1⟩

/-- Membership in the insertions of one corpus entry. -/
theorem mem_itemInserts (embedFn : String → List ℚ) (item : CorpusEntry)
    (v : IndexedVector) :
    v ∈ itemInserts embedFn item ↔
      ∃ p ∈ variantList item, pyStrip p.2 ≠ "" ∧
        v = mkVector embedFn item p.1 p.2 := by
  simp only [itemInserts, List.mem_filterMap]
  constructor
  · rintro ⟨p, hp, he⟩
    by_cases hs : pyStrip p.2 ≠ ""
    · rw [if_pos hs] at he
      exact ⟨p, hp, hs, (Option.some_inj.mp he).symm⟩
    · rw [if_neg hs] at he
      cases he
  · rintro ⟨p, hp, hs, rfl⟩
    exact ⟨p, hp, by rw [if_pos hs]⟩

/-- Membership in the insertions over the whole corpus. -/
theorem mem_allInserts (embedFn : String → List ℚ) (data : List CorpusEntry)
    (v : IndexedVector) :
    v ∈ allInserts embedFn data ↔
      ∃ item ∈ data, ∃ p ∈ variantList item, pyStrip p.2 ≠ "" ∧
        v = mkVector embedFn item p.1 p.2 := by
  induction data with
  | nil => simp [allInserts]
  | cons item rest ih =>
    simp only [allInserts, List.mem_append, ih, mem_itemInserts, List.mem_cons]
    constructor
    · rintro (⟨p, hp, hs, rfl⟩ | ⟨it, hit, hrest⟩)
      · exact ⟨item, Or.inl rfl, p, hp, hs, rfl⟩
      · exact ⟨it, Or.inr hit, hrest⟩
    · rintro ⟨it, rfl | hit, h⟩
      · exact Or.inl h
      · exact Or.inr ⟨it, hit, h⟩

/-- Claim C9: the loader inserts iff the stored-vector count is zero; on an
empty index the inserted vectors are exactly one per corpus entry and
language variant with non-empty stripped question text, keyed by the entry
id, an underscore and the language, carrying the question text, its
embedding, all three answer variants and the language tag; on a non-empty
index nothing is inserted. -/
theorem loader_populates_iff_empty (embedFn : String → List ℚ) (count : Nat)
    (data : List CorpusEntry) :
    (count ≠ 0 → initialInserts embedFn count data = []) ∧
    (count = 0 → ∀ v, v ∈ initialInserts embedFn count data ↔
      ∃ item ∈ data, ∃ p ∈ variantList item, pyStrip p.2 ≠ "" ∧
        v = mkVector embedFn item p.1 p.2) ∧
    (∀ item p, p ∈ variantList item → pyStrip p.2 ≠ "" →
      (itemInserts embedFn item).countP
        (fun v => v.metadata.language == p.1) = 1) ∧
    (∀ item lang q_text,
      (mkVector embedFn item lang q_text).key = item.id ++ "_" ++ lang ∧
      (mkVector embedFn item lang q_text).document = q_text ∧
      (mkVector embedFn item lang q_text).embedding = embedFn q_text ∧
      (mkVector embedFn item lang q_text).metadata =
        ⟨item.answer.english, item.answer.hinglish, item.answer.hindi, lang⟩) := by
  refine ⟨fun hc => by simp [initialInserts, hc], fun hc v => ?_,
    fun item p hp hs => ?_, fun item lang q_text => ⟨rfl, rfl, rfl, rfl⟩⟩
  · rw [initialInserts, if_pos hc]
    exact mem_allInserts embedFn data v
  · have hmem : p = ("english", item.question.english) ∨
        p = ("hinglish", item.question.hinglish) ∨
        p = ("hindi", item.question.hindi) := by
      simpa [variantList] using hp
    rcases hmem with rfl | rfl | rfl <;>
      simp only [itemInserts, variantList, List.filterMap_cons,
        List.filterMap_nil] <;>
      rw [if_pos hs] <;>
      split_ifs <;>
      simp [List.countP_cons, mkVector]

/-- Witness for C9: a non-zero count suppresses ingestion, and on a zero
count the single-entry corpus yields exactly one English vector. -/
theorem loader_populates_iff_empty_witness :
    (1 ≠ 0) ∧
    initialInserts (fun s => [(s.length : ℚ)]) 1
      [⟨"7", ⟨"what is sip", "", ""⟩, ⟨"aE", "aHG", "aHI"⟩⟩] = [] ∧
    pyStrip "what is sip" ≠ "" ∧
    (itemInserts (fun s => [(s.length : ℚ)])
        ⟨"7", ⟨"what is sip", "", ""⟩, ⟨"aE", "aHG", "aHI"⟩⟩).countP
      (fun v => v.metadata.language == "english") = 1 :=
  ⟨by decide,
    (loader_populates_iff_empty (fun s => [(s.length : ℚ)]) 1
      [⟨"7", ⟨"what is sip", "", ""⟩, ⟨"aE", "aHG", "aHI"⟩⟩]).1 (by decide),
    by decide,
    (loader_populates_iff_empty (fun s => [(s.length : ℚ)]) 0
      [⟨"7", ⟨"what is sip", "", ""⟩, ⟨"aE", "aHG", "aHI"⟩⟩]).2.2.1
      ⟨"7", ⟨"what is sip", "", ""⟩, ⟨"aE", "aHG", "aHI"⟩⟩
      ("english", "what is sip") (by decide) (by decide)⟩

/-- Claim C7 failing input: the validation rejection of an empty or
whitespace-only question is raised as HTTPException 400 inside the try
block, but the catch-all except clause converts it into the same
HTTPException 500 used for service-layer errors, so the caller sees no
distinct status; moreover the core result is never consulted for an empty
question. -/
theorem shim_validation_status_collapses :
    chat "" (Except.ok ("answer", 1/2)) =
      ChatResult.httpError 500
        "Error processing query: 400: Question cannot be empty" ∧
    chat "   " (Except.ok ("answer", 1/2)) =
      ChatResult.httpError 500
        "Error processing query: 400: Question cannot be empty" ∧
    chat "what is a mutual fund" (Except.error "embedding service down") =
      ChatResult.httpError 500
        "Error processing query: embedding service down" ∧
    ∀ core1 core2, chat "" core1 = chat "" core2 := by
  refine ⟨rfl, rfl, ?_, fun core1 core2 => rfl⟩
  have hq : ¬("what is a mutual fund" = "" ∨
      pyStrip "what is a mutual fund" = "") := by decide
  simp only [chat, chatBody, if_neg hq, excMessage]
  rfl

/-- Claim C10 counterexample: a genuine match at distance 99999 over 100000
with threshold 0 gives the nonzero core score 1 over 100000, and the shim
reports it as the numeric similarity score 0, which the claim says a caller
can never observe. -/
theorem zero_score_observable :
    (ragAnswer "which sip is best" 0
        ⟨[⟨"q1", 99999/100000, ⟨"ansE", "ansHG", "ansHI", "english"⟩⟩],
          "NO", fun s => s⟩).1 = ("ansE", 1/100000) ∧
    ((1:ℚ)/100000 ≠ 0) ∧
    chat "which sip is best" (Except.ok ("ansE", 1/100000)) =
      ChatResult.response ⟨"success", "which sip is best", "ansE", some 0⟩ := by
  refine ⟨?_, by norm_num, ?_⟩
  · have hg : guardFires "which sip is best" = false := by decide
    have htm : thresholdMatch ((99999:ℚ)/100000) 0 = true :=
      thresholdMatch_of_le (by norm_num)
    rw [ragAnswer_unfold hg rfl]
    have hm : matchResult
        ⟨"q1", 99999/100000, ⟨"ansE", "ansHG", "ansHI", "english"⟩⟩ 0 =
        some ("ansE", 1/100000) := by
      simp only [matchResult, htm, if_true]
      norm_num
    rw [hm]
  · have hq : ¬("which sip is best" = "" ∨
        pyStrip "which sip is best" = "") := by decide
    have hs : ((1:ℚ)/100000) ≠ 0 := by norm_num
    have hround : pyRound4 ((1:ℚ)/100000) = 0 := by
      have harg : ((1:ℚ)/100000) * 10000 = 1/10 := by norm_num
      have hfloor : ⌊(1:ℚ)/10⌋ = 0 := by norm_num [Int.floor_eq_iff]
      rw [pyRound4, harg, roundHalfEven, hfloor]
      norm_num
    simp only [chat, chatBody, if_neg hq, if_neg hs, hround]

/-- Claim C10 as amended: a core score of exactly 0 is reported as a null
similarity score, and every nonzero score is reported rounded to 4 decimal
places, a value that is itself the numeric 0 whenever the nonzero score is
small enough, so the caller can observe a numeric 0 score. -/
theorem shim_score_rendering (question answer : String) (s : ℚ)
    (hq : pyStrip question ≠ "") :
    chat question (Except.ok (answer, s)) =
      ChatResult.response ⟨"success", question, answer,
        if s = 0 then none else some (pyRound4 s)⟩ := by
  have hq0 : question ≠ "" := by
    intro e
    apply hq
    rw [e]
    rfl
  have hcond : ¬(question = "" ∨ pyStrip question = "") := by
    rintro (h | h)
    · exact hq0 h
    · exact hq h
  simp only [chat, chatBody, if_neg hcond]

/-- Witness for the amended C10: a score of one half is rendered rounded. -/
theorem shim_score_rendering_witness :
    pyStrip "hello" ≠ "" ∧
    chat "hello" (Except.ok ("world", 1/2)) =
      ChatResult.response ⟨"success", "hello", "world",
        if (1:ℚ)/2 = 0 then none else some (pyRound4 (1/2))⟩ :=
  ⟨by decide, shim_score_rendering "hello" "world" (1/2) (by decide)⟩
